import Mathlib

/-
Shallow embedding of the ADT7320 STM32 temperature-sensor driver
(src/lib/adt7320.c together with src/lib/adt7320.h).

Modelling conventions:
- Machine integers are Nat with explicit truncation: a store into uint8_t
  is `% 256`, a store into uint16_t is `% 65536`.
- The HAL transport (HAL_SPI_Transmit, HAL_SPI_TransmitReceive) is an
  abstract bus: a pair of functions from (SPI handle, bytes, timeout) to a
  HAL status (and, for the full-duplex exchange, the bytes that end up in
  the caller buffer).  The in-place TransmitReceive overwrite of txRxBuf is
  modelled by `bufAfterExchange`.
- Every HAL call (GPIO chip-select write, SPI transmit, SPI exchange) is
  recorded in an event trace, so claims about call counts and ordering are
  claims about the trace.
- A possibly-NULL pointer argument is an Option; an out-parameter becomes
  an extra Option component of the result (none = the location was not
  written).
- The float arithmetic of ADT7320_ReadTemperature is modelled in ℚ: every
  int16 or uint16 value divided by 128 (a power of two) is exactly
  representable in binary32, so the rational model is exact.
-/

/-- Return status codes of the driver (adt7320.h lines 157-163). -/
inductive ADT7320_StatusTypeDef
  | ADT7320_OK
  | ADT7320_ERROR
  | ADT7320_BUSY
  | ADT7320_TIMEOUT
deriving DecidableEq, Repr

/-- STM32 HAL status codes (stm32xx_hal_def.h), returned by the SPI calls. -/
inductive HAL_StatusTypeDef
  | HAL_OK
  | HAL_ERROR
  | HAL_BUSY
  | HAL_TIMEOUT
deriving DecidableEq, Repr

open ADT7320_StatusTypeDef HAL_StatusTypeDef

/-- The C cast `(ADT7320_StatusTypeDef) halStatus` (adt7320.c lines 64, 100,
146): both enums use the codes 0,1,2,3, so the cast pairs the constructors
up value for value. -/
def castStatus : HAL_StatusTypeDef → ADT7320_StatusTypeDef
  | HAL_OK => ADT7320_OK
  | HAL_ERROR => ADT7320_ERROR
  | HAL_BUSY => ADT7320_BUSY
  | HAL_TIMEOUT => ADT7320_TIMEOUT

/-- GPIO pin levels (STM32 HAL). The chip select of the ADT7320 is active
low: GPIO_PIN_RESET asserts it, GPIO_PIN_SET deasserts it. -/
inductive GPIO_PinState
  | GPIO_PIN_RESET
  | GPIO_PIN_SET
deriving DecidableEq, Repr

open GPIO_PinState

/-- One observable HAL call made by the driver. -/
inductive Event
  | gpioWrite (port : Nat) (pin : Nat) (state : GPIO_PinState)
  | spiTransmit (spix : Nat) (bytes : List Nat) (timeout : Nat)
  | spiTransmitReceive (spix : Nat) (txBytes : List Nat) (timeout : Nat)
deriving DecidableEq, Repr

open Event

/-- The abstract SPI transport: the behaviour of HAL_SPI_Transmit and
HAL_SPI_TransmitReceive as seen by the driver.  `transmitReceive` returns
the HAL status together with the bytes the HAL leaves in the caller
buffer region (a failing transport may leave the outbound bytes there
unchanged). -/
structure SPIBus where
  transmit : Nat → List Nat → Nat → HAL_StatusTypeDef
  transmitReceive : Nat → List Nat → Nat → HAL_StatusTypeDef × List Nat

/-- Configuration structure (adt7320.h lines 144-149); the SPI handle and
GPIO port pointers are abstracted to identifiers. -/
structure ADT7320_ConfigTypeDef where
  SPIx : Nat
  csPort : Nat
  csPin : Nat
deriving DecidableEq, Repr

/-- adt7320.h line 118. -/
def ADT7320_MAX_DELAY : Nat := 0xFFFFFFFF

/-- adt7320.h line 121: read command mask (bit 6 = 1). -/
def ADT7320_READ : Nat := 0x40

/-- adt7320.h line 122: write command mask (bit 6 = 0). -/
def ADT7320_WRITE : Nat := 0x00

/-- adt7320.h lines 126-133: register address map. -/
def ADT7320_STATUS : Nat := 0x00

def ADT7320_CONFIG : Nat := 0x01

def ADT7320_TEMP : Nat := 0x02

def ADT7320_ID : Nat := 0x03

def ADT7320_TCRIT : Nat := 0x04

def ADT7320_THYST : Nat := 0x05

def ADT7320_THIGH : Nat := 0x06

def ADT7320_TLOW : Nat := 0x07

/-- adt7320.c line 97: `txRxBuf[0U] = (ADT7320_READ | ((reg & 0x1FU) << 3U))`,
with the store into a uint8_t slot truncating mod 256. -/
def readCommandByte (reg : Nat) : Nat :=
  (ADT7320_READ ||| ((reg &&& 0x1F) <<< 3)) % 256

/-- adt7320.c line 138: `txBuf[0U] = (ADT7320_WRITE | ((reg & 0x1FU) << 3U))`. -/
def writeCommandByte (reg : Nat) : Nat :=
  (ADT7320_WRITE ||| ((reg &&& 0x1F) <<< 3)) % 256

/-- Contents of txRxBuf after the in-place HAL_SPI_TransmitReceive: the HAL
overwrites the exchanged region with the received bytes and leaves the rest
of the buffer alone. -/
def bufAfterExchange (buf rx : List Nat) : List Nat :=
  rx ++ buf.drop rx.length

/-- adt7320.c lines 103-106: `for (i = 1; i <= dataSize; i++) rxData =
(rxData << 8) | txRxBuf[i];` with rxData a uint16_t (truncation mod 65536)
initialised to 0. -/
def rxAssemble (buf : List Nat) (dataSize : Nat) : Nat :=
  (List.range dataSize).foldl
    (fun rxData j => ((rxData <<< 8) ||| buf.getD (j + 1) 0) % 65536) 0

/-- adt7320.c lines 140-143: `txBuf[i + 1U] = (uint8_t)(data >> (8U *
(dataSize - i - 1U)))` for i = 0 .. dataSize-1. -/
def writePayload (data dataSize : Nat) : List Nat :=
  (List.range dataSize).map (fun i => (data >>> (8 * (dataSize - i - 1))) % 256)

/-- ADT7320_Init (adt7320.c lines 52-69): NULL check, then chip select low,
HAL_SPI_Transmit of the four 0xFF reset bytes, chip select high; the HAL
status is cast and returned. -/
def ADT7320_Init (bus : SPIBus) (pConfig : Option ADT7320_ConfigTypeDef) :
    ADT7320_StatusTypeDef × List Event :=
  match pConfig with
  | none => (ADT7320_ERROR, [])
  | some cfg =>
    let data : List Nat := [0xFF, 0xFF, 0xFF, 0xFF]
    let halStatus := bus.transmit cfg.SPIx data ADT7320_MAX_DELAY
    (castStatus halStatus,
     [gpioWrite cfg.csPort cfg.csPin GPIO_PIN_RESET,
      spiTransmit cfg.SPIx data ADT7320_MAX_DELAY,
      gpioWrite cfg.csPort cfg.csPin GPIO_PIN_SET])

/-- ADT7320_ReadRegister (adt7320.c lines 85-111).  The guard rejects a
NULL pConfig or dataSize == 0 (and nothing else).  Otherwise: command byte
into txRxBuf[0], chip select low, full-duplex exchange of dataSize + 1
bytes, chip select high, big-endian reassembly of txRxBuf[1..dataSize] into
*pData — the store to *pData happens unconditionally, whatever the HAL
status was. -/
def ADT7320_ReadRegister (bus : SPIBus) (pConfig : Option ADT7320_ConfigTypeDef)
    (reg : Nat) (dataSize : Nat) :
    ADT7320_StatusTypeDef × Option Nat × List Event :=
  match pConfig with
  | none => (ADT7320_ERROR, none, [])
  | some cfg =>
    if dataSize = 0 then
      (ADT7320_ERROR, none, [])
    else
      let txRxBuf : List Nat := [readCommandByte reg, 0, 0]
      let tx := txRxBuf.take (dataSize + 1)
      let res := bus.transmitReceive cfg.SPIx tx ADT7320_MAX_DELAY
      let buf := bufAfterExchange txRxBuf res.2
      (castStatus res.1,
       some (rxAssemble buf dataSize),
       [gpioWrite cfg.csPort cfg.csPin GPIO_PIN_RESET,
        spiTransmitReceive cfg.SPIx tx ADT7320_MAX_DELAY,
        gpioWrite cfg.csPort cfg.csPin GPIO_PIN_SET])

/-- ADT7320_WriteRegister (adt7320.c lines 127-151).  Same guard as the
read; otherwise the command byte followed by the most-significant-first
payload is transmitted as dataSize + 1 bytes inside the chip-select
window. -/
def ADT7320_WriteRegister (bus : SPIBus) (pConfig : Option ADT7320_ConfigTypeDef)
    (reg : Nat) (dataSize : Nat) (data : Nat) :
    ADT7320_StatusTypeDef × List Event :=
  match pConfig with
  | none => (ADT7320_ERROR, [])
  | some cfg =>
    if dataSize = 0 then
      (ADT7320_ERROR, [])
    else
      let txBuf : List Nat := writeCommandByte reg :: writePayload data dataSize
      let halStatus := bus.transmit cfg.SPIx txBuf ADT7320_MAX_DELAY
      (castStatus halStatus,
       [gpioWrite cfg.csPort cfg.csPin GPIO_PIN_RESET,
        spiTransmit cfg.SPIx txBuf ADT7320_MAX_DELAY,
        gpioWrite cfg.csPort cfg.csPin GPIO_PIN_SET])

/-- adt7320.c lines 184-191: the conversion of the raw 16-bit code.  The C
cast `(int16_t)data` for data with bit 15 set yields data - 65536 on the
two's-complement STM32 targets; the float divisions by 128.0f are exact, so
ℚ is a faithful model. -/
def tempOfRaw (data : Nat) : ℚ :=
  if data &&& 0x8000 ≠ 0 then
    (((data : Int) - 65536 : Int) : ℚ) / 128
  else
    (data : ℚ) / 128

/-- ADT7320_ReadTemperature (adt7320.c lines 168-197): NULL check, one
ADT7320_ReadRegister call at address ADT7320_TEMP with size 2, and on
ADT7320_OK only, conversion and store into *pTemperature (none = the
output location was left untouched). -/
def ADT7320_ReadTemperature (bus : SPIBus) (pConfig : Option ADT7320_ConfigTypeDef) :
    ADT7320_StatusTypeDef × Option ℚ × List Event :=
  match pConfig with
  | none => (ADT7320_ERROR, none, [])
  | some cfg =>
    let r := ADT7320_ReadRegister bus (some cfg) ADT7320_TEMP 2
    let data := r.2.1.getD 0
    if r.1 = ADT7320_OK then
      (r.1, some (tempOfRaw data), r.2.2)
    else
      (r.1, none, r.2.2)

/-- All bytes that crossed the SPI bus during a trace, in order. -/
def busBytes : List Event → List Nat
  | [] => []
  | spiTransmit _ bs _ :: rest => bs ++ busBytes rest
  | spiTransmitReceive _ bs _ :: rest => bs ++ busBytes rest
  | gpioWrite _ _ _ :: rest => busBytes rest

/-- A trace that is one chip-select-bracketed transaction: assert, a single
SPI call, deassert, and no other chip-select activity. -/
def singleSelectTransaction (cfg : ADT7320_ConfigTypeDef) (t : List Event) : Prop :=
  ∃ e, t = [gpioWrite cfg.csPort cfg.csPin GPIO_PIN_RESET, e,
            gpioWrite cfg.csPort cfg.csPin GPIO_PIN_SET] ∧
       ∀ port pin s, e ≠ gpioWrite port pin s

/-- A transport whose exchanges succeed and echo the outbound bytes back. -/
def okBus : SPIBus where
  transmit := fun _ _ _ => HAL_OK
  transmitReceive := fun _ tx _ => (HAL_OK, tx)

/-- A transport that fails every call and leaves the buffer unchanged. -/
def errBus : SPIBus where
  transmit := fun _ _ _ => HAL_ERROR
  transmitReceive := fun _ tx _ => (HAL_ERROR, tx)

/-- A concrete handle for witnesses. -/
def cfg0 : ADT7320_ConfigTypeDef := ⟨0, 1, 2⟩

/-- Specification-side restatement of the temperature conversion, written
from the spec wording: interpret the raw 16-bit code as two's-complement
signed if bit 15 is set and as unsigned otherwise, then divide by 128. -/
def specTemperature (raw : Nat) : ℚ :=
  if raw.testBit 15 then
    (((raw : Int) - 65536 : Int) : ℚ) / 128
  else
    (raw : ℚ) / 128

lemma shiftLeft8_or_eq_add (a b : Nat) (hb : b < 256) :
    (a <<< 8) ||| b = 256 * a + b := by
  have h := Nat.mul_add_lt_is_or (show b < 2 ^ 8 by omega) a
  rw [Nat.shiftLeft_eq]
  calc a * 2 ^ 8 ||| b = 2 ^ 8 * a ||| b := by rw [Nat.mul_comm]
    _ = 2 ^ 8 * a + b := h.symm
    _ = 256 * a + b := by norm_num

lemma commandByte_lt (d reg : Nat) (hd : d < 256) :
    d ||| ((reg &&& 0x1F) <<< 3) < 256 := by
  have h256 : (256 : Nat) = 2 ^ 8 := by norm_num
  rw [h256] at hd ⊢
  apply Nat.or_lt_two_pow hd
  rw [Nat.shiftLeft_eq]
  have hm : reg &&& 0x1F ≤ 0x1F := Nat.and_le_right
  have h3 : (2 : Nat) ^ 3 = 8 := by norm_num
  have h8 : (2 : Nat) ^ 8 = 256 := by norm_num
  omega

lemma readCommandByte_eq (reg : Nat) :
    readCommandByte reg = 0x40 ||| ((reg &&& 0x1F) <<< 3) := by
  unfold readCommandByte ADT7320_READ
  exact Nat.mod_eq_of_lt (commandByte_lt 0x40 reg (by norm_num))

lemma writeCommandByte_eq (reg : Nat) :
    writeCommandByte reg = 0x00 ||| ((reg &&& 0x1F) <<< 3) := by
  unfold writeCommandByte ADT7320_WRITE
  exact Nat.mod_eq_of_lt (commandByte_lt 0x00 reg (by norm_num))

lemma rxAssemble_one (c b : Nat) (rest : List Nat) (hb : b < 256) :
    rxAssemble (c :: b :: rest) 1 = b := by
  have h0 : (0 : Nat) <<< 8 = 0 := Nat.zero_shiftLeft 8
  simp only [rxAssemble, List.range_succ, List.range_zero, List.nil_append,
    List.foldl_cons, List.foldl_nil]
  simp [h0, Nat.mod_eq_of_lt (show b < 65536 by omega)]

lemma rxAssemble_two (c d0 d1 : Nat) (rest : List Nat)
    (hd0 : d0 < 256) (hd1 : d1 < 256) :
    rxAssemble (c :: d0 :: d1 :: rest) 2 = 256 * d0 + d1 := by
  have h0 : (0 : Nat) <<< 8 = 0 := Nat.zero_shiftLeft 8
  have hd0m : d0 % 65536 = d0 := Nat.mod_eq_of_lt (by omega)
  have hor := shiftLeft8_or_eq_add d0 d1 hd1
  simp only [rxAssemble, List.range_succ, List.range_zero, List.nil_append,
    List.foldl_cons, List.foldl_nil, List.foldl_append]
  simp [h0, hd0m, hor, Nat.mod_eq_of_lt (show 256 * d0 + d1 < 65536 by omega)]

lemma readRegister_eval (bus : SPIBus) (cfg : ADT7320_ConfigTypeDef)
    (reg dataSize : Nat) (hs : dataSize ≠ 0) :
    ADT7320_ReadRegister bus (some cfg) reg dataSize =
      (castStatus (bus.transmitReceive cfg.SPIx
          (List.take (dataSize + 1) [readCommandByte reg, 0, 0]) ADT7320_MAX_DELAY).1,
       some (rxAssemble
          (bufAfterExchange [readCommandByte reg, 0, 0]
            (bus.transmitReceive cfg.SPIx
              (List.take (dataSize + 1) [readCommandByte reg, 0, 0]) ADT7320_MAX_DELAY).2)
          dataSize),
       [Event.gpioWrite cfg.csPort cfg.csPin GPIO_PIN_RESET,
        Event.spiTransmitReceive cfg.SPIx
          (List.take (dataSize + 1) [readCommandByte reg, 0, 0]) ADT7320_MAX_DELAY,
        Event.gpioWrite cfg.csPort cfg.csPin GPIO_PIN_SET]) := by
  simp [ADT7320_ReadRegister, hs]

lemma writeRegister_eval (bus : SPIBus) (cfg : ADT7320_ConfigTypeDef)
    (reg dataSize data : Nat) (hs : dataSize ≠ 0) :
    ADT7320_WriteRegister bus (some cfg) reg dataSize data =
      (castStatus (bus.transmit cfg.SPIx
          (writeCommandByte reg :: writePayload data dataSize) ADT7320_MAX_DELAY),
       [Event.gpioWrite cfg.csPort cfg.csPin GPIO_PIN_RESET,
        Event.spiTransmit cfg.SPIx
          (writeCommandByte reg :: writePayload data dataSize) ADT7320_MAX_DELAY,
        Event.gpioWrite cfg.csPort cfg.csPin GPIO_PIN_SET]) := by
  simp [ADT7320_WriteRegister, hs]

lemma and_8000_ne_iff (raw : Nat) : raw &&& 0x8000 ≠ 0 ↔ raw.testBit 15 := by
  have h := Nat.and_two_pow raw 15
  rw [show (0x8000 : Nat) = 2 ^ 15 by norm_num, h]
  cases hb : raw.testBit 15 <;> simp

lemma tempOfRaw_eq_spec (raw : Nat) : tempOfRaw raw = specTemperature raw := by
  unfold tempOfRaw specTemperature
  by_cases h : raw.testBit 15
  · rw [if_pos ((and_8000_ne_iff raw).mpr h), if_pos h]
  · rw [if_neg (fun hc => h ((and_8000_ne_iff raw).mp hc)), if_neg h]

/-- C1: the claim says a requested size of 0 or greater than 2 is rejected
with ADT7320_ERROR and zero transport calls.  The guard at adt7320.c lines
91 and 132 only rejects dataSize == 0: with a valid handle and dataSize = 3
both functions reach the transport (the trace holds a chip-select assert,
one SPI call of dataSize + 1 bytes and a deassert) and return the transport
status — here ADT7320_OK — instead of ADT7320_ERROR. -/
theorem C1_sizeThreeReachesTransport :
    (ADT7320_ReadRegister okBus (some cfg0) 0 3).1 = ADT7320_OK ∧
    (ADT7320_ReadRegister okBus (some cfg0) 0 3).2.2 ≠ [] ∧
    (ADT7320_WriteRegister okBus (some cfg0) 0 3 0).1 = ADT7320_OK ∧
    (ADT7320_WriteRegister okBus (some cfg0) 0 3 0).2 ≠ [] := by
  decide

/-- C2: for every register address a in 0..31 and both directions, the
first byte put on the bus — by ADT7320_ReadRegister with direction 0x40 and
by ADT7320_WriteRegister with direction 0x00 — equals
direction ||| ((a &&& 0x1F) <<< 3). -/
theorem C2_commandByte (bus : SPIBus) (cfg : ADT7320_ConfigTypeDef)
    (a dataSize data : Nat) (ha : a < 32) (hs : dataSize ≠ 0) :
    (busBytes (ADT7320_ReadRegister bus (some cfg) a dataSize).2.2).head?
      = some (0x40 ||| ((a &&& 0x1F) <<< 3)) ∧
    (busBytes (ADT7320_WriteRegister bus (some cfg) a dataSize data).2).head?
      = some (0x00 ||| ((a &&& 0x1F) <<< 3)) := by
  constructor
  · rw [readRegister_eval bus cfg a dataSize hs]
    simp [busBytes, List.take_succ_cons, readCommandByte_eq]
  · rw [writeRegister_eval bus cfg a dataSize data hs]
    simp [busBytes, writeCommandByte_eq]

/-- C2 applied at address 5, size 1: both hypotheses discharged. -/
theorem C2_commandByte_witness :
    (5 : Nat) < 32 ∧ (1 : Nat) ≠ 0 ∧
    ((busBytes (ADT7320_ReadRegister okBus (some cfg0) 5 1).2.2).head?
        = some (0x40 ||| ((5 &&& 0x1F) <<< 3)) ∧
     (busBytes (ADT7320_WriteRegister okBus (some cfg0) 5 1 0xAB).2).head?
        = some (0x00 ||| ((5 &&& 0x1F) <<< 3))) :=
  ⟨by decide, by decide, C2_commandByte okBus cfg0 5 1 0xAB (by decide) (by decide)⟩

/-- C3: for both valid sizes the read value is the big-endian reassembly of
the received bytes that follow the command byte: one received byte b0 gives
b0, two received bytes d0, d1 give 256 * d0 + d1. -/
theorem C3_bigEndianReassembly (bus : SPIBus) (cfg : ADT7320_ConfigTypeDef)
    (reg : Nat) (st1 st2 : HAL_StatusTypeDef) (c0 b0 c1 d0 d1 : Nat)
    (h1 : bus.transmitReceive cfg.SPIx [readCommandByte reg, 0] ADT7320_MAX_DELAY
            = (st1, [c0, b0]))
    (hb0 : b0 < 256)
    (h2 : bus.transmitReceive cfg.SPIx [readCommandByte reg, 0, 0] ADT7320_MAX_DELAY
            = (st2, [c1, d0, d1]))
    (hd0 : d0 < 256) (hd1 : d1 < 256) :
    (ADT7320_ReadRegister bus (some cfg) reg 1).2.1 = some b0 ∧
    (ADT7320_ReadRegister bus (some cfg) reg 2).2.1 = some (256 * d0 + d1) := by
  constructor
  · rw [readRegister_eval bus cfg reg 1 (by decide)]
    rw [show List.take (1 + 1) [readCommandByte reg, 0, 0]
          = [readCommandByte reg, 0] from rfl, h1]
    simp only [bufAfterExchange]
    norm_num
    exact rxAssemble_one c0 b0 [0] hb0
  · rw [readRegister_eval bus cfg reg 2 (by decide)]
    rw [show List.take (2 + 1) [readCommandByte reg, 0, 0]
          = [readCommandByte reg, 0, 0] from rfl, h2]
    simp only [bufAfterExchange]
    norm_num
    exact rxAssemble_two c1 d0 d1 [] hd0 hd1

/-- A transport for the C3 witness: a two-byte exchange delivers the single
register byte 0x80, a three-byte exchange delivers the bytes 0x23, 0x00. -/
def c3Bus : SPIBus where
  transmit := fun _ _ _ => HAL_OK
  transmitReceive := fun _ tx _ =>
    if tx.length = 2 then (HAL_OK, [0, 0x80]) else (HAL_OK, [0, 0x23, 0x00])

/-- C3 applied to a concrete transport: received byte 0x80 yields 0x80 and
received bytes 0x23, 0x00 yield 0x2300. -/
theorem C3_bigEndianReassembly_witness :
    ((0x80 : Nat) < 256 ∧ (0x23 : Nat) < 256 ∧ (0x00 : Nat) < 256) ∧
    ((ADT7320_ReadRegister c3Bus (some cfg0) ADT7320_TEMP 1).2.1 = some 0x80 ∧
     (ADT7320_ReadRegister c3Bus (some cfg0) ADT7320_TEMP 2).2.1
        = some (256 * 0x23 + 0x00)) :=
  ⟨⟨by decide, by decide, by decide⟩,
   C3_bigEndianReassembly c3Bus cfg0 ADT7320_TEMP HAL_OK HAL_OK 0 0x80 0 0x23 0x00
     (by decide) (by decide) (by decide) (by decide) (by decide)⟩

/-- C4: for each valid size the write transaction puts dataSize + 1 bytes
on the bus, the payload byte at position i + 1 equals
(data >>> (8 * (dataSize - i - 1))) % 256 (most-significant first), and the
whole trace is one chip-select-bracketed transmit. -/
theorem C4_writeFraming (bus : SPIBus) (cfg : ADT7320_ConfigTypeDef)
    (reg dataSize data : Nat) (hs : dataSize = 1 ∨ dataSize = 2) :
    (busBytes (ADT7320_WriteRegister bus (some cfg) reg dataSize data).2).length
        = dataSize + 1 ∧
    (∀ i, i < dataSize →
      (busBytes (ADT7320_WriteRegister bus (some cfg) reg dataSize data).2).getD (i + 1) 0
        = (data >>> (8 * (dataSize - i - 1))) % 256) ∧
    (∃ bs, (ADT7320_WriteRegister bus (some cfg) reg dataSize data).2
        = [gpioWrite cfg.csPort cfg.csPin GPIO_PIN_RESET,
           spiTransmit cfg.SPIx bs ADT7320_MAX_DELAY,
           gpioWrite cfg.csPort cfg.csPin GPIO_PIN_SET]) := by
  rcases hs with rfl | rfl <;>
    rw [writeRegister_eval bus cfg reg _ data (by decide)] <;>
    refine ⟨?_, ?_, ⟨_, rfl⟩⟩ <;>
    simp only [busBytes, List.append_nil, writePayload, List.range_succ,
      List.range_zero, List.nil_append, List.map_append, List.map_cons,
      List.map_nil]
  · rfl
  · intro i hi
    interval_cases i <;> rfl
  · rfl
  · intro i hi
    interval_cases i <;> rfl

/-- C4 applied at size 2 with value 0xABCD: three bytes on the bus and the
first payload byte is the high byte of the value. -/
theorem C4_writeFraming_witness :
    ((2 : Nat) = 1 ∨ (2 : Nat) = 2) ∧
    (busBytes (ADT7320_WriteRegister okBus (some cfg0) 1 2 0xABCD).2).length = 2 + 1 ∧
    (busBytes (ADT7320_WriteRegister okBus (some cfg0) 1 2 0xABCD).2).getD (0 + 1) 0
      = (0xABCD >>> (8 * (2 - 0 - 1))) % 256 :=
  ⟨Or.inr rfl,
   (C4_writeFraming okBus cfg0 1 2 0xABCD (Or.inr rfl)).1,
   (C4_writeFraming okBus cfg0 1 2 0xABCD (Or.inr rfl)).2.1 0 (by decide)⟩

lemma readTemperature_eval (bus : SPIBus) (cfg : ADT7320_ConfigTypeDef) :
    ADT7320_ReadTemperature bus (some cfg) =
      (let r := ADT7320_ReadRegister bus (some cfg) ADT7320_TEMP 2
       if r.1 = ADT7320_OK then (r.1, some (tempOfRaw (r.2.1.getD 0)), r.2.2)
       else (r.1, none, r.2.2)) := by
  simp [ADT7320_ReadTemperature]

/-- C5: the driver output is the spec-side conversion — two's-complement
signed when bit 15 is set, unsigned otherwise, divided by 128 — of the
16-bit code assembled from the two received bytes; and the conversion sends
raw 0x2300 to +70 and raw 0xF600 to -20 degrees. -/
theorem C5_temperatureConversion (bus : SPIBus) (cfg : ADT7320_ConfigTypeDef)
    (c hi lo : Nat)
    (hx : bus.transmitReceive cfg.SPIx
            [readCommandByte ADT7320_TEMP, 0, 0] ADT7320_MAX_DELAY
          = (HAL_OK, [c, hi, lo]))
    (hhi : hi < 256) (hlo : lo < 256) :
    (ADT7320_ReadTemperature bus (some cfg)).2.1
        = some (specTemperature (256 * hi + lo)) ∧
    tempOfRaw 0x2300 = 70 ∧ tempOfRaw 0xF600 = -20 := by
  have hr : ADT7320_ReadRegister bus (some cfg) ADT7320_TEMP 2
      = (ADT7320_OK, some (256 * hi + lo),
         [gpioWrite cfg.csPort cfg.csPin GPIO_PIN_RESET,
          spiTransmitReceive cfg.SPIx
            [readCommandByte ADT7320_TEMP, 0, 0] ADT7320_MAX_DELAY,
          gpioWrite cfg.csPort cfg.csPin GPIO_PIN_SET]) := by
    rw [readRegister_eval bus cfg ADT7320_TEMP 2 (by decide),
        show List.take (2 + 1) [readCommandByte ADT7320_TEMP, 0, 0]
          = [readCommandByte ADT7320_TEMP, 0, 0] from rfl, hx]
    simp only [bufAfterExchange]
    norm_num [castStatus]
    exact rxAssemble_two c hi lo [] hhi hlo
  refine ⟨?_, ?_, ?_⟩
  · rw [readTemperature_eval, hr]
    simp [tempOfRaw_eq_spec]
  · unfold tempOfRaw
    rw [if_neg (by decide)]
    norm_num
  · unfold tempOfRaw
    rw [if_pos (by decide)]
    norm_num

/-- A transport for the C5 witness: the temperature read receives the raw
bytes 0x23, 0x00. -/
def tempBusPos : SPIBus where
  transmit := fun _ _ _ => HAL_OK
  transmitReceive := fun _ _ _ => (HAL_OK, [0, 0x23, 0x00])

/-- C5 applied to a concrete transport delivering raw code 0x2300. -/
theorem C5_temperatureConversion_witness :
    ((0x23 : Nat) < 256 ∧ (0x00 : Nat) < 256) ∧
    ((ADT7320_ReadTemperature tempBusPos (some cfg0)).2.1
        = some (specTemperature (256 * 0x23 + 0x00)) ∧
     tempOfRaw 0x2300 = 70 ∧ tempOfRaw 0xF600 = -20) :=
  ⟨⟨by decide, by decide⟩,
   C5_temperatureConversion tempBusPos cfg0 0 0x23 0x00 rfl (by decide) (by decide)⟩

/-- C6: every transaction of init, read and write that reaches the
transport is one chip-select assert, one SPI call, one deassert — for every
transport behaviour, so in particular when the exchange fails. -/
theorem C6_chipSelectBracketing (bus : SPIBus) (cfg : ADT7320_ConfigTypeDef)
    (reg dataSize data : Nat) (hs : dataSize ≠ 0) :
    singleSelectTransaction cfg (ADT7320_Init bus (some cfg)).2 ∧
    singleSelectTransaction cfg (ADT7320_ReadRegister bus (some cfg) reg dataSize).2.2 ∧
    singleSelectTransaction cfg (ADT7320_WriteRegister bus (some cfg) reg dataSize data).2 := by
  refine ⟨⟨spiTransmit cfg.SPIx [0xFF, 0xFF, 0xFF, 0xFF] ADT7320_MAX_DELAY,
            rfl, by intro port pin s; simp⟩,
          ⟨spiTransmitReceive cfg.SPIx
              (List.take (dataSize + 1) [readCommandByte reg, 0, 0]) ADT7320_MAX_DELAY,
            ?_, by intro port pin s; simp⟩,
          ⟨spiTransmit cfg.SPIx
              (writeCommandByte reg :: writePayload data dataSize) ADT7320_MAX_DELAY,
            ?_, by intro port pin s; simp⟩⟩
  · rw [readRegister_eval bus cfg reg dataSize hs]
  · rw [writeRegister_eval bus cfg reg dataSize data hs]

/-- C6 applied to a transport that fails every call: the chip select is
still asserted and deasserted exactly once around each SPI call. -/
theorem C6_chipSelectBracketing_witness :
    (2 : Nat) ≠ 0 ∧
    (singleSelectTransaction cfg0 (ADT7320_Init errBus (some cfg0)).2 ∧
     singleSelectTransaction cfg0
        (ADT7320_ReadRegister errBus (some cfg0) ADT7320_TEMP 2).2.2 ∧
     singleSelectTransaction cfg0
        (ADT7320_WriteRegister errBus (some cfg0) ADT7320_TEMP 2 0).2) :=
  ⟨by decide, C6_chipSelectBracketing errBus cfg0 ADT7320_TEMP 2 0 (by decide)⟩

/-- C7: a NULL handle makes each of the four operations return
ADT7320_ERROR with an empty trace: no transport call, no chip-select
activity. -/
theorem C7_nullHandle (bus : SPIBus) (reg dataSize data : Nat) :
    ADT7320_Init bus none = (ADT7320_ERROR, []) ∧
    ADT7320_ReadRegister bus none reg dataSize = (ADT7320_ERROR, none, []) ∧
    ADT7320_WriteRegister bus none reg dataSize data = (ADT7320_ERROR, []) ∧
    ADT7320_ReadTemperature bus none = (ADT7320_ERROR, none, []) :=
  ⟨rfl, rfl, rfl, rfl⟩

/-- C8: with a valid handle, init performs exactly one chip-select-bracketed
transmit of the four bytes 0xFF (no command byte in front), and the return
value is the transport status carried over constructor for constructor. -/
theorem C8_initResetSequence (bus : SPIBus) (cfg : ADT7320_ConfigTypeDef) :
    ADT7320_Init bus (some cfg)
      = (castStatus (bus.transmit cfg.SPIx [0xFF, 0xFF, 0xFF, 0xFF] ADT7320_MAX_DELAY),
         [gpioWrite cfg.csPort cfg.csPin GPIO_PIN_RESET,
          spiTransmit cfg.SPIx [0xFF, 0xFF, 0xFF, 0xFF] ADT7320_MAX_DELAY,
          gpioWrite cfg.csPort cfg.csPin GPIO_PIN_SET]) ∧
    busBytes (ADT7320_Init bus (some cfg)).2 = [0xFF, 0xFF, 0xFF, 0xFF] ∧
    (castStatus HAL_OK = ADT7320_OK ∧ castStatus HAL_ERROR = ADT7320_ERROR ∧
     castStatus HAL_BUSY = ADT7320_BUSY ∧ castStatus HAL_TIMEOUT = ADT7320_TIMEOUT) :=
  ⟨rfl, rfl, rfl, rfl, rfl, rfl⟩

/-- C9: read temperature returns exactly the status and performs exactly
the trace of one register read at address ADT7320_TEMP with size 2, and
when that status is not ADT7320_OK the output location is untouched. -/
theorem C9_temperatureDelegation (bus : SPIBus) (cfg : ADT7320_ConfigTypeDef) :
    (ADT7320_ReadTemperature bus (some cfg)).1
        = (ADT7320_ReadRegister bus (some cfg) ADT7320_TEMP 2).1 ∧
    (ADT7320_ReadTemperature bus (some cfg)).2.2
        = (ADT7320_ReadRegister bus (some cfg) ADT7320_TEMP 2).2.2 ∧
    ((ADT7320_ReadRegister bus (some cfg) ADT7320_TEMP 2).1 ≠ ADT7320_OK →
      (ADT7320_ReadTemperature bus (some cfg)).2.1 = none) := by
  by_cases h : (ADT7320_ReadRegister bus (some cfg) ADT7320_TEMP 2).1 = ADT7320_OK <;>
    simp [ADT7320_ReadTemperature, h]

/-- C9 applied to a failing transport: the error status comes back and the
output stays untouched. -/
theorem C9_temperatureDelegation_witness :
    (ADT7320_ReadRegister errBus (some cfg0) ADT7320_TEMP 2).1 ≠ ADT7320_OK ∧
    (ADT7320_ReadTemperature errBus (some cfg0)).2.1 = none :=
  ⟨by decide, (C9_temperatureDelegation errBus cfg0).2.2 (by decide)⟩

/-- C10: whatever status the exchange reports, the read stores a value —
the big-endian reassembly of the post-exchange buffer — through the output
pointer, and returns the cast transport status. -/
theorem C10_unconditionalStore (bus : SPIBus) (cfg : ADT7320_ConfigTypeDef)
    (reg dataSize : Nat) (st : HAL_StatusTypeDef) (rx : List Nat)
    (hs : dataSize ≠ 0)
    (hx : bus.transmitReceive cfg.SPIx
            (List.take (dataSize + 1) [readCommandByte reg, 0, 0]) ADT7320_MAX_DELAY
          = (st, rx)) :
    (ADT7320_ReadRegister bus (some cfg) reg dataSize).2.1
      = some (rxAssemble (bufAfterExchange [readCommandByte reg, 0, 0] rx) dataSize) ∧
    (ADT7320_ReadRegister bus (some cfg) reg dataSize).1 = castStatus st := by
  rw [readRegister_eval bus cfg reg dataSize hs, hx]
  exact ⟨rfl, rfl⟩

/-- C10 applied to a transport that fails and leaves the buffer holding the
outbound bytes: the output location is still written. -/
theorem C10_unconditionalStore_witness :
    ((2 : Nat) ≠ 0 ∧
     errBus.transmitReceive cfg0.SPIx
        (List.take (2 + 1) [readCommandByte 0, 0, 0]) ADT7320_MAX_DELAY
       = (HAL_ERROR, [readCommandByte 0, 0, 0])) ∧
    ((ADT7320_ReadRegister errBus (some cfg0) 0 2).2.1
        = some (rxAssemble (bufAfterExchange [readCommandByte 0, 0, 0]
            [readCommandByte 0, 0, 0]) 2) ∧
     (ADT7320_ReadRegister errBus (some cfg0) 0 2).1 = castStatus HAL_ERROR) :=
  ⟨⟨by decide, by decide⟩,
   C10_unconditionalStore errBus cfg0 0 2 HAL_ERROR [readCommandByte 0, 0, 0]
     (by decide) (by decide)⟩
